import Mathlib

/-!
Verification of the browser-session lifecycle manager and action dispatch
layer of `mcp_playwright_tools.py`.

The Python module is shallowly embedded as follows.

* `ManagerState` mirrors the fields of the `PlaywrightManager` singleton:
  the launch configuration (`browser_type`, `headless`, viewport) and the
  four lazily created resource references (`playwright`, `browser`,
  `context`, `page`), each modelled as `Option Nat` holding an abstract
  handle id (`none` = the Python attribute is `None`).
* `World` pairs a `ManagerState` with a fresh-id counter so that every
  engine-side allocation produces a distinct handle, which lets theorems
  talk about "the same page / context / engine handle" and about duplicate
  construction.
* Engine-side effects are recorded in a trace of `EngineOp` values; the
  outcomes of fallible engine calls are supplied by a `PageEnv` /
  `CloseEnv` oracle (`none` = the awaited call returns normally,
  `some msg` = it raises an exception whose text is `msg`).
* Each MCP tool handler becomes a function returning an `ActionOut`:
  the updated `World`, the trace of engine operations it performed, and
  `Except PyExn String` — `.ok s` models the Python function returning the
  string `s`, `.error e` models an exception escaping the handler.
* Arguments whose handlers perform Python truthiness / `isinstance`
  checks are modelled as `PyVal` so that empty strings, `None` and
  non-string values can be distinguished exactly as the source does.
* File contents are not modelled; file writes are recorded as
  `EngineOp.writeFile path` trace entries, which is all the claims about
  output paths need.
-/

inductive BrowserType
  | chromium
  | firefox
  | webkit
deriving DecidableEq, Repr

/-- The attributes of the `PlaywrightManager` singleton
(`mcp_playwright_tools.py`, lines 31-47). -/
structure ManagerState where
  browser_type : BrowserType
  headless : Bool
  viewport_width : Nat
  viewport_height : Nat
  playwright : Option Nat
  browser : Option Nat
  context : Option Nat
  page : Option Nat
deriving DecidableEq, Repr

/-- A `ManagerState` together with a counter supplying fresh handle ids for
newly constructed engine resources. -/
structure World where
  nextId : Nat
  mgr : ManagerState
deriving DecidableEq, Repr

/-- Engine-side operations performed by the handlers, in order. -/
inductive EngineOp
  | startPlaywright
  | launch (bt : BrowserType) (headless : Bool)
  | newContext (withViewport : Bool)
  | newPage
  | closePage
  | closeContext
  | closeBrowser
  | stopPlaywright
  | goto (url : String)
  | waitForLoad
  | fill (selector : String) (text : String)
  | click (selector : String)
  | querySelector (selector : String)
  | querySelectorAll (selector : String)
  | evaluate
  | pdf (path : String) (landscape : Bool) (format : Option String)
  | pageScreenshot (path : String)
  | elementScreenshot (path : String)
  | keyboardPress (key : String)
  | contextCookies
  | clearCookies
  | innerHtml
  | innerText
  | pageContent
  | elementEvaluate
  | elementFill (text : String)
  | writeFile (path : String)
deriving DecidableEq, Repr

/-- A Python exception escaping a handler. -/
inductive PyExn
  | valueError (msg : String)
  | nameError (name : String)
  | engine (msg : String)
deriving DecidableEq, Repr

deriving instance DecidableEq for Except

/-- Result of running one tool handler: final world, trace of engine
operations, and either the returned string or an escaped exception. -/
structure ActionOut where
  world : World
  ops : List EngineOp
  result : Except PyExn String
deriving DecidableEq, Repr

/-- Result of `PlaywrightManager.close`: final manager state, trace, and the
text of the exception that escaped, if any. -/
structure CloseOut where
  state : ManagerState
  ops : List EngineOp
  err : Option String
deriving DecidableEq, Repr

/-- Result of `PlaywrightManager.ensure_browser`: final world, trace, and the
handle id of the returned page. -/
structure AcquireOut where
  world : World
  ops : List EngineOp
  pageId : Nat
deriving DecidableEq, Repr

/-- A Python argument value, as far as the handlers' truthiness and
`isinstance` checks can observe it. -/
inductive PyVal
  | str (s : String)
  | int (n : Int)
  | bool (b : Bool)
  | pynone
deriving DecidableEq, Repr

/-- Python truthiness of an argument value. -/
def PyVal.truthy : PyVal → Bool
  | .str s => !s.isEmpty
  | .int n => n != 0
  | .bool b => b
  | .pynone => false

/-- `isinstance(v, str)`. -/
def PyVal.isStr : PyVal → Bool
  | .str _ => true
  | _ => false

/-- `isinstance(v, int)` — in Python, `bool` is a subclass of `int`. -/
def PyVal.isInt : PyVal → Bool
  | .int _ => true
  | .bool _ => true
  | _ => false

/-- The string payload of a `PyVal` (only used after an `isStr` check). -/
def PyVal.asStr : PyVal → String
  | .str s => s
  | _ => ""

/-- Python `str(v)` as used when interpolating an argument into a
message. -/
def PyVal.pyStr : PyVal → String
  | .str s => s
  | .int n => toString n
  | .bool b => if b then "True" else "False"
  | .pynone => "None"

/-- The pattern `not v or not isinstance(v, str)` used by the validating
handlers for selector / URL / XPath / key arguments. -/
def invalidStrArg (v : PyVal) : Bool :=
  !v.truthy || !v.isStr

/-- Outcomes of the awaited engine calls made by the handlers: `none` means
the call returns normally, `some msg` means it raises an exception with
text `msg`.  Query results are supplied by `queryFound` / `queryAllCount`. -/
structure PageEnv where
  gotoErr : Option String := none
  fillErr : Option String := none
  clickErr : Option String := none
  evalErr : Option String := none
  pdfErr : Option String := none
  pageScreenshotErr : Option String := none
  elementScreenshotErr : Option String := none
  queryErr : Option String := none
  queryAllErr : Option String := none
  innerHtmlErr : Option String := none
  innerTextErr : Option String := none
  contentErr : Option String := none
  elementEvalErr : Option String := none
  elementFillErr : Option String := none
  keyPressErr : Option String := none
  writeErr : Option String := none
  cookiesErr : Option String := none
  queryFound : String → Bool := fun _ => false
  queryAllCount : String → Nat := fun _ => 0
  outerHtmlVal : String := ""
  innerHtmlVal : String := ""
  innerTextVal : String := ""
  contentVal : String := ""
  cookiesVal : String := ""

/-- Outcomes of the four awaited teardown calls in
`PlaywrightManager.close`. -/
structure CloseEnv where
  pageCloseErr : Option String := none
  contextCloseErr : Option String := none
  browserCloseErr : Option String := none
  stopErr : Option String := none
deriving DecidableEq, Repr

/-- A `PageEnv` in which every engine call succeeds and no selector
matches. -/
def okPageEnv : PageEnv := {}

/-- A `CloseEnv` in which every teardown call succeeds. -/
def okCloseEnv : CloseEnv := {}

/-- `tempfile.gettempdir()`, modelled as an abstract path distinct from the
module's own directory. -/
def tempdir : String := "/tmp"

/-- `work_dir = os.path.dirname(__file__)` (line 109): the directory
containing the module, modelled as an abstract path distinct from
`tempdir`. -/
def work_dir : String := "/repo/src"

/-- `os.path.join(dir, name)` for a relative `name`. -/
def pathJoin (dir name : String) : String :=
  dir ++ "/" ++ name

/-- All four resource references of the manager are absent. -/
def ManagerState.isEmptySession (s : ManagerState) : Bool :=
  s.page.isNone && s.context.isNone && s.browser.isNone && s.playwright.isNone

/-- `PlaywrightManager(browser_type='chromium', headless=False,
viewer_port=(1200, 900))` as constructed at module load (line 107), before
any lazy initialization. -/
def initialManager : ManagerState :=
  { browser_type := BrowserType.chromium
    headless := false
    viewport_width := 1200
    viewport_height := 900
    playwright := none
    browser := none
    context := none
    page := none }

/-- The process state at module load. -/
def initialWorld : World :=
  { nextId := 0, mgr := initialManager }

/-- `PlaywrightManager.ensure_browser` (lines 49-80).  Four sequential
checks, exactly as in the source: start the engine if absent; if the
browser is absent, launch it with the configured type and headless flag,
create a context with the configured viewport and a page inside it
(overwriting any stale context/page references, as the source does); then
create a bare context if still absent; then a page if still absent.
Returns the page reference. -/
def PlaywrightManager.ensure_browser (w : World) : AcquireOut :=
  let s0 := w.mgr
  let n0 := w.nextId
  let startPw := s0.playwright.isNone
  let s1 := if startPw then { s0 with playwright := some n0 } else s0
  let n1 := if startPw then n0 + 1 else n0
  let ops1 : List EngineOp := if startPw then [EngineOp.startPlaywright] else []
  let launch := s1.browser.isNone
  let s2 :=
    if launch then
      { s1 with browser := some n1, context := some (n1 + 1), page := some (n1 + 2) }
    else s1
  let n2 := if launch then n1 + 3 else n1
  let ops2 : List EngineOp :=
    if launch then
      [EngineOp.launch s1.browser_type s1.headless, EngineOp.newContext true, EngineOp.newPage]
    else []
  let mkCtx := s2.context.isNone
  let s3 := if mkCtx then { s2 with context := some n2 } else s2
  let n3 := if mkCtx then n2 + 1 else n2
  let ops3 : List EngineOp := if mkCtx then [EngineOp.newContext false] else []
  let mkPage := s3.page.isNone
  let s4 := if mkPage then { s3 with page := some n3 } else s3
  let n4 := if mkPage then n3 + 1 else n3
  let ops4 : List EngineOp := if mkPage then [EngineOp.newPage] else []
  { world := { nextId := n4, mgr := s4 }
    ops := ops1 ++ ops2 ++ ops3 ++ ops4
    pageId := (s4.page).getD 0 }

/-- `PlaywrightManager.close` (lines 82-100).  Four sequential steps with no
exception handling: each awaited close/stop either succeeds (and the
reference is cleared) or raises, in which case the remaining statements do
not run and the later references stay set. -/
def PlaywrightManager.close (cenv : CloseEnv) (s : ManagerState) : CloseOut :=
  let r1 : CloseOut :=
    match s.page, cenv.pageCloseErr with
    | some _, some e => { state := s, ops := [EngineOp.closePage], err := some e }
    | some _, none => { state := { s with page := none }, ops := [EngineOp.closePage], err := none }
    | none, _ => { state := s, ops := [], err := none }
  if r1.err.isSome then r1 else
  let r2 : CloseOut :=
    match r1.state.context, cenv.contextCloseErr with
    | some _, some e => { state := r1.state, ops := r1.ops ++ [EngineOp.closeContext], err := some e }
    | some _, none =>
      { state := { r1.state with context := none }, ops := r1.ops ++ [EngineOp.closeContext], err := none }
    | none, _ => { state := r1.state, ops := r1.ops, err := none }
  if r2.err.isSome then r2 else
  let r3 : CloseOut :=
    match r2.state.browser, cenv.browserCloseErr with
    | some _, some e => { state := r2.state, ops := r2.ops ++ [EngineOp.closeBrowser], err := some e }
    | some _, none =>
      { state := { r2.state with browser := none }, ops := r2.ops ++ [EngineOp.closeBrowser], err := none }
    | none, _ => { state := r2.state, ops := r2.ops, err := none }
  if r3.err.isSome then r3 else
  match r3.state.playwright, cenv.stopErr with
  | some _, some e => { state := r3.state, ops := r3.ops ++ [EngineOp.stopPlaywright], err := some e }
  | some _, none =>
    { state := { r3.state with playwright := none }, ops := r3.ops ++ [EngineOp.stopPlaywright], err := none }
  | none, _ => { state := r3.state, ops := r3.ops, err := none }

/-- `browser_navigate` (lines 116-144).  Validates the URL before touching
the manager; the `try` block covers `goto` and `wait_for_load_state`, whose
combined outcome is supplied by `gotoErr`. -/
def browser_navigate (url : PyVal) (env : PageEnv) (w : World) : ActionOut :=
  if invalidStrArg url then
    { world := w, ops := [], result := Except.ok "Error: URL must be a non-empty string" }
  else
    let u := url.asStr
    let a := PlaywrightManager.ensure_browser w
    match env.gotoErr with
    | some e =>
      { world := a.world, ops := a.ops ++ [EngineOp.goto u]
        result := Except.ok ("Error navigating to " ++ u ++ ": " ++ e) }
    | none =>
      { world := a.world, ops := a.ops ++ [EngineOp.goto u, EngineOp.waitForLoad]
        result := Except.ok ("Navigated to " ++ u) }

/-- `browser_close` (lines 150-158): awaits `pw_manager.close()` with no
exception handling and returns a fixed confirmation. -/
def browser_close (cenv : CloseEnv) (w : World) : ActionOut :=
  let r := PlaywrightManager.close cenv w.mgr
  match r.err with
  | some e =>
    { world := { w with mgr := r.state }, ops := r.ops, result := Except.error (PyExn.engine e) }
  | none =>
    { world := { w with mgr := r.state }, ops := r.ops, result := Except.ok "Browser closed" }

/-- `browser_fill` (lines 204-230). -/
def browser_fill (selector text : PyVal) (env : PageEnv) (w : World) : ActionOut :=
  if invalidStrArg selector then
    { world := w, ops := [], result := Except.ok "Error: Selector must be a non-empty string" }
  else if !text.isStr then
    { world := w, ops := [], result := Except.ok "Error: Text must be a string" }
  else
    let sel := selector.asStr
    let a := PlaywrightManager.ensure_browser w
    match env.fillErr with
    | some e =>
      { world := a.world, ops := a.ops ++ [EngineOp.fill sel text.asStr]
        result := Except.ok ("Could not fill element: " ++ e) }
    | none =>
      { world := a.world, ops := a.ops ++ [EngineOp.fill sel text.asStr]
        result := Except.ok ("Filled text in element with selector '" ++ sel ++ "'") }

/-- The XPath normalization at lines 251-252. -/
def normalizeXPath (x : String) : String :=
  if !x.startsWith "//" && !x.startsWith "xpath=" then "xpath=" ++ x else x

/-- `browser_find_by_xpath` (lines 237-263). -/
def browser_find_by_xpath (xpath : PyVal) (env : PageEnv) (w : World) : ActionOut :=
  if invalidStrArg xpath then
    { world := w, ops := [], result := Except.ok "Error: XPath must be a non-empty string" }
  else
    let x := normalizeXPath xpath.asStr
    let a := PlaywrightManager.ensure_browser w
    match env.queryAllErr with
    | some e =>
      { world := a.world, ops := a.ops ++ [EngineOp.querySelectorAll x]
        result := Except.ok ("Error finding elements: " ++ e) }
    | none =>
      { world := a.world, ops := a.ops ++ [EngineOp.querySelectorAll x]
        result := Except.ok ("Found " ++ toString (env.queryAllCount x) ++
          " elements matching XPath '" ++ x ++ "'") }

/-- `browser_click` (lines 307-330): no existence query — `page.click` is
attempted directly and any engine error is converted to a message. -/
def browser_click (selector : PyVal) (env : PageEnv) (w : World) : ActionOut :=
  if invalidStrArg selector then
    { world := w, ops := [], result := Except.ok "Error: Selector must be a non-empty string" }
  else
    let sel := selector.asStr
    let a := PlaywrightManager.ensure_browser w
    match env.clickErr with
    | some e =>
      { world := a.world, ops := a.ops ++ [EngineOp.click sel]
        result := Except.ok ("Could not click element: " ++ e) }
    | none =>
      { world := a.world, ops := a.ops ++ [EngineOp.click sel]
        result := Except.ok ("Clicked element with selector '" ++ sel ++ "'") }

/-- The tail of `browser_save_as_pdf` (lines 354-376): acquire the page,
build the timestamped path in the temporary directory, assemble the PDF
options (`format` is included only when truthy) and attempt the export,
converting an engine error to a returned message. -/
def savePdfGenerate (landscape : Bool) (format : Option String) (env : PageEnv)
    (ts : String) (ops0 : List EngineOp) (w : World) : ActionOut :=
  let a := PlaywrightManager.ensure_browser w
  let file_name := pathJoin tempdir ("page_" ++ ts ++ ".pdf")
  let fmt : Option String :=
    match format with
    | some f => if f.isEmpty then none else some f
    | none => none
  let ops := ops0 ++ a.ops ++ [EngineOp.pdf file_name landscape fmt]
  match env.pdfErr with
  | some e => { world := a.world, ops := ops, result := Except.ok ("Failed to generate PDF: " ++ e) }
  | none => { world := a.world, ops := ops, result := Except.ok ("PDF saved to " ++ file_name) }

/-- `browser_save_as_pdf` (lines 337-376).  If the session is not a
headless chromium one, it is torn down via `pw_manager.close()` (an
escaped teardown exception propagates, skipping the assignments) and the
configuration is set to `browser_type = 'chromium'`, `headless = False` —
exactly as at lines 351-352 of the source. -/
def browser_save_as_pdf (landscape : Bool) (format : Option String) (cenv : CloseEnv)
    (env : PageEnv) (ts : String) (w : World) : ActionOut :=
  if w.mgr.browser_type ≠ BrowserType.chromium ∨ w.mgr.headless = false then
    let r := PlaywrightManager.close cenv w.mgr
    match r.err with
    | some e =>
      { world := { w with mgr := r.state }, ops := r.ops, result := Except.error (PyExn.engine e) }
    | none =>
      savePdfGenerate landscape format env ts r.ops
        { w with mgr := { r.state with browser_type := BrowserType.chromium, headless := false } }
  else
    savePdfGenerate landscape format env ts [] w

/-- Message of the engine error raised when `page.query_selector` receives
a non-string value (the exact engine text is abstracted). -/
def nonStringSelectorMsg : String := "selector: expected string"

/-- `browser_screenshot` (lines 383-416).  The `file_path` argument is
accepted but never read: the output path is always the timestamped name in
the temporary directory.  A truthy selector is looked up first and a
missing element yields a distinct not-found message; a falsy selector
(including the empty string) selects the full-page branch.  No validation
happens before `ensure_browser`. -/
def browser_screenshot (selector file_path : PyVal) (env : PageEnv) (ts : String)
    (w : World) : ActionOut :=
  let a := PlaywrightManager.ensure_browser w
  let file_name := pathJoin tempdir ("screenshot_" ++ ts ++ ".png")
  if selector.truthy then
    if !selector.isStr then
      { world := a.world, ops := a.ops
        result := Except.ok ("Failed to take screenshot: " ++ nonStringSelectorMsg) }
    else
      let sel := selector.asStr
      match env.queryErr with
      | some e =>
        { world := a.world, ops := a.ops ++ [EngineOp.querySelector sel]
          result := Except.ok ("Failed to take screenshot: " ++ e) }
      | none =>
        if env.queryFound sel then
          match env.elementScreenshotErr with
          | some e =>
            { world := a.world
              ops := a.ops ++ [EngineOp.querySelector sel, EngineOp.elementScreenshot file_name]
              result := Except.ok ("Failed to take screenshot: " ++ e) }
          | none =>
            { world := a.world
              ops := a.ops ++ [EngineOp.querySelector sel, EngineOp.elementScreenshot file_name]
              result := Except.ok ("Screenshot saved to " ++ file_name) }
        else
          { world := a.world, ops := a.ops ++ [EngineOp.querySelector sel]
            result := Except.ok ("Error: Could not find element with selector '" ++ sel ++ "'") }
  else
    match env.pageScreenshotErr with
    | some e =>
      { world := a.world, ops := a.ops ++ [EngineOp.pageScreenshot file_name]
        result := Except.ok ("Failed to take screenshot: " ++ e) }
    | none =>
      { world := a.world, ops := a.ops ++ [EngineOp.pageScreenshot file_name]
        result := Except.ok ("Screenshot saved to " ++ file_name) }

/-- `browser_scroll_to_bottom` (lines 456-491).  Unlike every sibling
handler, the `except` branch re-raises: it logs the message and then
executes `raise ValueError(error_msg)`, so an engine failure escapes the
handler as an exception instead of being returned. -/
def browser_scroll_to_bottom (env : PageEnv) (w : World) : ActionOut :=
  let a := PlaywrightManager.ensure_browser w
  match env.evalErr with
  | some e =>
    { world := a.world, ops := a.ops ++ [EngineOp.evaluate]
      result := Except.error (PyExn.valueError ("Failed to scroll to bottom: " ++ e)) }
  | none =>
    { world := a.world, ops := a.ops ++ [EngineOp.evaluate]
      result := Except.ok "Scrolled to bottom of page" }

/-- `browser_scroll_to_element` (lines 498-539): validates, then queries for
existence before the scrolling `evaluate`. -/
def browser_scroll_to_element (selector : PyVal) (env : PageEnv) (w : World) : ActionOut :=
  if invalidStrArg selector then
    { world := w, ops := [], result := Except.ok "Error: Selector must be a non-empty string" }
  else
    let sel := selector.asStr
    let a := PlaywrightManager.ensure_browser w
    match env.queryErr with
    | some e =>
      { world := a.world, ops := a.ops ++ [EngineOp.querySelector sel]
        result := Except.ok ("Failed to scroll to element: " ++ e) }
    | none =>
      if env.queryFound sel then
        match env.evalErr with
        | some e =>
          { world := a.world, ops := a.ops ++ [EngineOp.querySelector sel, EngineOp.evaluate]
            result := Except.ok ("Failed to scroll to element: " ++ e) }
        | none =>
          { world := a.world, ops := a.ops ++ [EngineOp.querySelector sel, EngineOp.evaluate]
            result := Except.ok ("Scrolled to element with selector '" ++ sel ++ "'") }
      else
        { world := a.world, ops := a.ops ++ [EngineOp.querySelector sel]
          result := Except.ok ("Error: No element found with selector: " ++ sel) }

/-- `get_element_html` (lines 563-589): validates, queries
`xpath={xpath}`, then reads `inner_html`. -/
def get_element_html (xpath : PyVal) (env : PageEnv) (w : World) : ActionOut :=
  if invalidStrArg xpath then
    { world := w, ops := [], result := Except.ok "Error: XPath must be a non-empty string" }
  else
    let x := xpath.asStr
    let a := PlaywrightManager.ensure_browser w
    match env.queryErr with
    | some e =>
      { world := a.world, ops := a.ops ++ [EngineOp.querySelector ("xpath=" ++ x)]
        result := Except.ok ("Error getting element HTML: " ++ e) }
    | none =>
      if env.queryFound ("xpath=" ++ x) then
        match env.innerHtmlErr with
        | some e =>
          { world := a.world
            ops := a.ops ++ [EngineOp.querySelector ("xpath=" ++ x), EngineOp.innerHtml]
            result := Except.ok ("Error getting element HTML: " ++ e) }
        | none =>
          { world := a.world
            ops := a.ops ++ [EngineOp.querySelector ("xpath=" ++ x), EngineOp.innerHtml]
            result := Except.ok env.innerHtmlVal }
      else
        { world := a.world, ops := a.ops ++ [EngineOp.querySelector ("xpath=" ++ x)]
          result := Except.ok ("Error: No element found with XPath: " ++ x) }

/-- `get_element_text` (lines 596-622). -/
def get_element_text (xpath : PyVal) (env : PageEnv) (w : World) : ActionOut :=
  if invalidStrArg xpath then
    { world := w, ops := [], result := Except.ok "Error: XPath must be a non-empty string" }
  else
    let x := xpath.asStr
    let a := PlaywrightManager.ensure_browser w
    match env.queryErr with
    | some e =>
      { world := a.world, ops := a.ops ++ [EngineOp.querySelector ("xpath=" ++ x)]
        result := Except.ok ("Error getting element text: " ++ e) }
    | none =>
      if env.queryFound ("xpath=" ++ x) then
        match env.innerTextErr with
        | some e =>
          { world := a.world
            ops := a.ops ++ [EngineOp.querySelector ("xpath=" ++ x), EngineOp.innerText]
            result := Except.ok ("Error getting element text: " ++ e) }
        | none =>
          { world := a.world
            ops := a.ops ++ [EngineOp.querySelector ("xpath=" ++ x), EngineOp.innerText]
            result := Except.ok env.innerTextVal }
      else
        { world := a.world, ops := a.ops ++ [EngineOp.querySelector ("xpath=" ++ x)]
          result := Except.ok ("Error: No element found with XPath: " ++ x) }

/-- The default-path rule shared by the three `save_*` handlers: a falsy
`file_path` (absent or empty) selects the generated name under
`work_dir`. -/
def defaultedPath (file_path : Option String) (defName : String) : String :=
  match file_path with
  | some p => if p.isEmpty then pathJoin work_dir defName else p
  | none => pathJoin work_dir defName

/-- `save_element_as_html` (lines 682-732): validates the XPath, acquires,
defaults the path to `work_dir/element_{ts}.html`, queries for the
element, extracts `outerHTML`, rejects an empty extraction, and writes the
wrapped document (file contents are not modelled). -/
def save_element_as_html (xpath : PyVal) (file_path : Option String) (env : PageEnv)
    (ts : String) (w : World) : ActionOut :=
  if invalidStrArg xpath then
    { world := w, ops := [], result := Except.ok "Error: XPath must be a non-empty string" }
  else
    let x := xpath.asStr
    let a := PlaywrightManager.ensure_browser w
    let path := defaultedPath file_path ("element_" ++ ts ++ ".html")
    match env.queryErr with
    | some e =>
      { world := a.world, ops := a.ops ++ [EngineOp.querySelector ("xpath=" ++ x)]
        result := Except.ok ("Failed to save element HTML: " ++ e) }
    | none =>
      if env.queryFound ("xpath=" ++ x) then
        match env.elementEvalErr with
        | some e =>
          { world := a.world
            ops := a.ops ++ [EngineOp.querySelector ("xpath=" ++ x), EngineOp.elementEvaluate]
            result := Except.ok ("Failed to save element HTML: " ++ e) }
        | none =>
          if env.outerHtmlVal.isEmpty then
            { world := a.world
              ops := a.ops ++ [EngineOp.querySelector ("xpath=" ++ x), EngineOp.elementEvaluate]
              result := Except.ok ("Error: Could not extract HTML from element with XPath: " ++ x) }
          else
            match env.writeErr with
            | some e =>
              { world := a.world
                ops := a.ops ++ [EngineOp.querySelector ("xpath=" ++ x), EngineOp.elementEvaluate,
                  EngineOp.writeFile path]
                result := Except.ok ("Failed to save element HTML: " ++ e) }
            | none =>
              { world := a.world
                ops := a.ops ++ [EngineOp.querySelector ("xpath=" ++ x), EngineOp.elementEvaluate,
                  EngineOp.writeFile path]
                result := Except.ok ("Element HTML saved to " ++ path) }
      else
        { world := a.world, ops := a.ops ++ [EngineOp.querySelector ("xpath=" ++ x)]
          result := Except.ok ("Error: No element found with XPath: " ++ x) }

/-- `save_page_as_html` (lines 739-765): acquires, defaults the path to
`work_dir/page_{ts}.html`, reads `page.content()` and writes it. -/
def save_page_as_html (file_path : Option String) (env : PageEnv) (ts : String)
    (w : World) : ActionOut :=
  let a := PlaywrightManager.ensure_browser w
  let path := defaultedPath file_path ("page_" ++ ts ++ ".html")
  match env.contentErr with
  | some e =>
    { world := a.world, ops := a.ops ++ [EngineOp.pageContent]
      result := Except.ok ("Failed to save HTML: " ++ e) }
  | none =>
    match env.writeErr with
    | some e =>
      { world := a.world, ops := a.ops ++ [EngineOp.pageContent, EngineOp.writeFile path]
        result := Except.ok ("Failed to save HTML: " ++ e) }
    | none =>
      { world := a.world, ops := a.ops ++ [EngineOp.pageContent, EngineOp.writeFile path]
        result := Except.ok ("HTML saved to " ++ path) }

/-- `save_page_screenshot` (lines 772-798): acquires, defaults the path to
`work_dir/screenshot_{ts}.png` (an explicit path is kept as given —
`os.path.join(file_path)` is the identity on a single argument). -/
def save_page_screenshot (file_path : Option String) (env : PageEnv) (ts : String)
    (w : World) : ActionOut :=
  let a := PlaywrightManager.ensure_browser w
  let path := defaultedPath file_path ("screenshot_" ++ ts ++ ".png")
  match env.pageScreenshotErr with
  | some e =>
    { world := a.world, ops := a.ops ++ [EngineOp.pageScreenshot path]
      result := Except.ok ("Failed to take screenshot: " ++ e) }
  | none =>
    { world := a.world, ops := a.ops ++ [EngineOp.pageScreenshot path]
      result := Except.ok ("Screenshot saved to " ++ path) }

/-- `clear_field` (lines 805-831): validates, queries for the field, then
fills it with the empty string. -/
def clear_field (xpath : PyVal) (env : PageEnv) (w : World) : ActionOut :=
  if invalidStrArg xpath then
    { world := w, ops := [], result := Except.ok "Error: XPath must be a non-empty string" }
  else
    let x := xpath.asStr
    let a := PlaywrightManager.ensure_browser w
    match env.queryErr with
    | some e =>
      { world := a.world, ops := a.ops ++ [EngineOp.querySelector ("xpath=" ++ x)]
        result := Except.ok ("Failed to clear input field: " ++ e) }
    | none =>
      if env.queryFound ("xpath=" ++ x) then
        match env.elementFillErr with
        | some e =>
          { world := a.world
            ops := a.ops ++ [EngineOp.querySelector ("xpath=" ++ x), EngineOp.elementFill ""]
            result := Except.ok ("Failed to clear input field: " ++ e) }
        | none =>
          { world := a.world
            ops := a.ops ++ [EngineOp.querySelector ("xpath=" ++ x), EngineOp.elementFill ""]
            result := Except.ok ("Cleared content of input field with XPath: " ++ x) }
      else
        { world := a.world, ops := a.ops ++ [EngineOp.querySelector ("xpath=" ++ x)]
          result := Except.ok ("Error: No input field found with XPath: " ++ x) }

/-- `browser_press_key` (lines 838-861). -/
def browser_press_key (key : PyVal) (env : PageEnv) (w : World) : ActionOut :=
  if invalidStrArg key then
    { world := w, ops := [], result := Except.ok "Error: Key must be a non-empty string" }
  else
    let k := key.asStr
    let a := PlaywrightManager.ensure_browser w
    match env.keyPressErr with
    | some e =>
      { world := a.world, ops := a.ops ++ [EngineOp.keyboardPress k]
        result := Except.ok ("Error pressing key: " ++ e) }
    | none =>
      { world := a.world, ops := a.ops ++ [EngineOp.keyboardPress k]
        result := Except.ok ("Pressed key " ++ k) }

/-- `browser_scroll_one_step` (lines 868-890): validates
`isinstance(step, int)` (which Python booleans also satisfy) before
acquiring. -/
def browser_scroll_one_step (step : PyVal) (env : PageEnv) (w : World) : ActionOut :=
  if !step.isInt then
    { world := w, ops := [], result := Except.ok "Error: Step must be an integer" }
  else
    let a := PlaywrightManager.ensure_browser w
    match env.evalErr with
    | some e =>
      { world := a.world, ops := a.ops ++ [EngineOp.evaluate]
        result := Except.ok ("Failed to scroll the page: " ++ e) }
    | none =>
      { world := a.world, ops := a.ops ++ [EngineOp.evaluate]
        result := Except.ok ("Scrolled the page by " ++ step.pyStr ++ " pixels") }

/-- The module's import list (lines 1-10) brings in `os`, `tempfile`,
`asyncio`, `logging`, `typing`, `datetime`, `psutil`, `nest_asyncio`,
`playwright` and `mcp` — it never imports `json`, so the name `json` is
undefined at line 928. -/
def json_imported : Bool := false

/-- `get_cookies` (lines 917-928): acquires, reads the context cookies with
no exception handling (an engine failure propagates), then evaluates
`json.dumps(cookies, indent=4)` — but the module never imports `json`, so
the lookup of the name `json` raises `NameError` on every successful
cookie read. -/
def get_cookies (env : PageEnv) (w : World) : ActionOut :=
  let a := PlaywrightManager.ensure_browser w
  match env.cookiesErr with
  | some e =>
    { world := a.world, ops := a.ops ++ [EngineOp.contextCookies]
      result := Except.error (PyExn.engine e) }
  | none =>
    if json_imported then
      { world := a.world, ops := a.ops ++ [EngineOp.contextCookies]
        result := Except.ok env.cookiesVal }
    else
      { world := a.world, ops := a.ops ++ [EngineOp.contextCookies]
        result := Except.error (PyExn.nameError "json") }

/-- `n` successive `ensure_browser` calls with no intervening teardown:
final world, concatenated engine-operation trace, and the page returned by
each call. -/
def acquireTimes : Nat → World → World × List EngineOp × List Nat
  | 0, w => (w, [], [])
  | Nat.succ n, w =>
    let a := PlaywrightManager.ensure_browser w
    let r := acquireTimes n a.world
    (r.1, a.ops ++ r.2.1, a.pageId :: r.2.2)

theorem ensure_browser_full (w : World) :
    (PlaywrightManager.ensure_browser w).world.mgr.playwright.isSome ∧
    (PlaywrightManager.ensure_browser w).world.mgr.browser.isSome ∧
    (PlaywrightManager.ensure_browser w).world.mgr.context.isSome ∧
    (PlaywrightManager.ensure_browser w).world.mgr.page.isSome := by
  obtain ⟨n, bt, hl, vw, vh, pw, br, cx, pg⟩ := w
  cases pw <;> cases br <;> cases cx <;> cases pg <;>
    simp [PlaywrightManager.ensure_browser]

theorem ensure_browser_of_full (w : World) (hpw : w.mgr.playwright.isSome)
    (hb : w.mgr.browser.isSome) (hc : w.mgr.context.isSome) (hp : w.mgr.page.isSome) :
    PlaywrightManager.ensure_browser w = ⟨w, [], w.mgr.page.getD 0⟩ := by
  obtain ⟨n, bt, hl, vw, vh, pw, br, cx, pg⟩ := w
  obtain ⟨a, rfl⟩ := Option.isSome_iff_exists.mp hpw
  obtain ⟨b, rfl⟩ := Option.isSome_iff_exists.mp hb
  obtain ⟨c, rfl⟩ := Option.isSome_iff_exists.mp hc
  obtain ⟨d, rfl⟩ := Option.isSome_iff_exists.mp hp
  simp [PlaywrightManager.ensure_browser]

theorem ensure_browser_idem (w : World) :
    PlaywrightManager.ensure_browser (PlaywrightManager.ensure_browser w).world =
      ⟨(PlaywrightManager.ensure_browser w).world, [],
        (PlaywrightManager.ensure_browser w).pageId⟩ := by
  obtain ⟨h1, h2, h3, h4⟩ := ensure_browser_full w
  rw [ensure_browser_of_full _ h1 h2 h3 h4]
  obtain ⟨n, bt, hl, vw, vh, pw, br, cx, pg⟩ := w
  cases pw <;> cases br <;> cases cx <;> cases pg <;>
    simp [PlaywrightManager.ensure_browser]

theorem ensure_browser_page_eq (w : World) :
    (PlaywrightManager.ensure_browser w).world.mgr.page =
      some (PlaywrightManager.ensure_browser w).pageId := by
  obtain ⟨n, bt, hl, vw, vh, pw, br, cx, pg⟩ := w
  cases pw <;> cases br <;> cases cx <;> cases pg <;>
    simp [PlaywrightManager.ensure_browser]

theorem acquireTimes_after_first (n : Nat) (w : World) :
    acquireTimes n (PlaywrightManager.ensure_browser w).world =
      ((PlaywrightManager.ensure_browser w).world, [],
       List.replicate n (PlaywrightManager.ensure_browser w).pageId) := by
  induction n with
  | zero => simp [acquireTimes]
  | succ m ih => simp [acquireTimes, ensure_browser_idem w, ih, List.replicate_succ]

/-- C4: calling `acquire()` (`ensure_browser`) N ≥ 1 times with no
intervening `release()`/reconfigure returns the same page every time,
attached to the same context and engine handle, and the whole N-call
engine-operation trace equals the first call's trace — no duplicate
engine handle, browser, context or page is created after the first call
completes. -/
theorem c4_acquire_idempotent (w : World) (n : Nat) (hn : 1 ≤ n) :
    acquireTimes n w =
      ((PlaywrightManager.ensure_browser w).world,
       (PlaywrightManager.ensure_browser w).ops,
       List.replicate n (PlaywrightManager.ensure_browser w).pageId) ∧
    (PlaywrightManager.ensure_browser w).world.mgr.page =
      some (PlaywrightManager.ensure_browser w).pageId := by
  refine ⟨?_, ensure_browser_page_eq w⟩
  match n, hn with
  | Nat.succ m, _ =>
    simp [acquireTimes, acquireTimes_after_first m w, List.replicate_succ]

/-- Witness for C4 at N = 3 starting from the freshly loaded module. -/
theorem c4_witness :
    acquireTimes 3 initialWorld =
      ((PlaywrightManager.ensure_browser initialWorld).world,
       (PlaywrightManager.ensure_browser initialWorld).ops,
       List.replicate 3 (PlaywrightManager.ensure_browser initialWorld).pageId) ∧
    (PlaywrightManager.ensure_browser initialWorld).world.mgr.page =
      some (PlaywrightManager.ensure_browser initialWorld).pageId :=
  c4_acquire_idempotent initialWorld 3 (by decide)

theorem close_empty (cenv : CloseEnv) (s : ManagerState) (h : s.isEmptySession = true) :
    PlaywrightManager.close cenv s = { state := s, ops := [], err := none } := by
  obtain ⟨bt, hl, vw, vh, pw, br, cx, pg⟩ := s
  simp [ManagerState.isEmptySession, Option.isNone_iff_eq_none] at h
  obtain ⟨⟨⟨hpg, hcx⟩, hbr⟩, hpw⟩ := h
  subst hpg hcx hbr hpw
  simp [PlaywrightManager.close]

theorem close_ok (cenv : CloseEnv) (s : ManagerState) (h1 : cenv.pageCloseErr = none)
    (h2 : cenv.contextCloseErr = none) (h3 : cenv.browserCloseErr = none)
    (h4 : cenv.stopErr = none) :
    (PlaywrightManager.close cenv s).err = none ∧
    (PlaywrightManager.close cenv s).state =
      { s with page := none, context := none, browser := none, playwright := none } := by
  obtain ⟨e1, e2, e3, e4⟩ := cenv
  simp only [] at h1 h2 h3 h4
  subst h1 h2 h3 h4
  obtain ⟨bt, hl, vw, vh, pw, br, cx, pg⟩ := s
  cases pw <;> cases br <;> cases cx <;> cases pg <;>
    simp [PlaywrightManager.close]

theorem cleared_isEmptySession (s : ManagerState) :
    (ManagerState.isEmptySession
      { s with page := none, context := none, browser := none, playwright := none }) = true := by
  simp [ManagerState.isEmptySession]

/-- C5: `release()` is idempotent.  With no underlying teardown failure,
the first `Close` succeeds, returns the closed confirmation and leaves the
session empty; the second `Close` performs no engine operations, leaves the
world unchanged and returns the same confirmation; and a `Close` on an
empty session (under any environment) performs no engine operations at
all. -/
theorem c5_release_idempotent (cenv : CloseEnv) (w : World)
    (h1 : cenv.pageCloseErr = none) (h2 : cenv.contextCloseErr = none)
    (h3 : cenv.browserCloseErr = none) (h4 : cenv.stopErr = none) :
    (browser_close cenv w).result = Except.ok "Browser closed" ∧
    (browser_close cenv w).world.mgr.isEmptySession = true ∧
    browser_close cenv (browser_close cenv w).world =
      { world := (browser_close cenv w).world, ops := [], result := Except.ok "Browser closed" } ∧
    (∀ cenv' : CloseEnv, ∀ w' : World, w'.mgr.isEmptySession = true →
      browser_close cenv' w' =
        { world := w', ops := [], result := Except.ok "Browser closed" }) := by
  have hok := close_ok cenv w.mgr h1 h2 h3 h4
  have hempty : ∀ cenv' : CloseEnv, ∀ w' : World, w'.mgr.isEmptySession = true →
      browser_close cenv' w' =
        { world := w', ops := [], result := Except.ok "Browser closed" } := by
    intro cenv' w' h
    simp [browser_close, close_empty cenv' w'.mgr h]
  obtain ⟨he, hst⟩ := hok
  have hres : (browser_close cenv w).result = Except.ok "Browser closed" := by
    simp [browser_close, he]
  have hemp : (browser_close cenv w).world.mgr.isEmptySession = true := by
    simp [browser_close, he, hst, cleared_isEmptySession]
  exact ⟨hres, hemp, hempty cenv _ hemp, hempty⟩

/-- The world after the first `acquire()` on the freshly loaded module: a
fully constructed headed chromium session. -/
def liveWorld : World := (PlaywrightManager.ensure_browser initialWorld).world

/-- Witness for C5: a fault-free environment and a live session. -/
theorem c5_witness :
    (browser_close okCloseEnv liveWorld).result = Except.ok "Browser closed" ∧
    (browser_close okCloseEnv liveWorld).world.mgr.isEmptySession = true ∧
    browser_close okCloseEnv (browser_close okCloseEnv liveWorld).world =
      { world := (browser_close okCloseEnv liveWorld).world, ops := []
        result := Except.ok "Browser closed" } ∧
    (∀ cenv' : CloseEnv, ∀ w' : World, w'.mgr.isEmptySession = true →
      browser_close cenv' w' =
        { world := w', ops := [], result := Except.ok "Browser closed" }) :=
  c5_release_idempotent okCloseEnv liveWorld rfl rfl rfl rfl

/-- C6 counterexample: on a live session whose page close raises, `close`
lets the exception escape (`err` is set) and clears nothing — the page,
context, browser and engine references are all still present afterwards,
so teardown did not complete, contradicting the claim that teardown
failures are swallowed and every reference is cleared. -/
theorem c6_counterexample :
    (PlaywrightManager.close { pageCloseErr := some "TargetClosedError" } liveWorld.mgr).err =
      some "TargetClosedError" ∧
    (PlaywrightManager.close { pageCloseErr := some "TargetClosedError" } liveWorld.mgr).state =
      liveWorld.mgr ∧
    liveWorld.mgr.page.isSome = true ∧
    liveWorld.mgr.context.isSome = true ∧
    liveWorld.mgr.browser.isSome = true ∧
    liveWorld.mgr.playwright.isSome = true := by
  decide

/-- C6 (amended): `close` performs no error handling.  If the underlying
page close raises, the exception propagates out of `close`, teardown halts
immediately and no reference is cleared; only when every underlying
close/stop succeeds does teardown complete with all references cleared. -/
theorem c6_teardown_error_propagates (cenv : CloseEnv) (s : ManagerState) (e : String)
    (hp : s.page.isSome = true) (he : cenv.pageCloseErr = some e) :
    PlaywrightManager.close cenv s =
      { state := s, ops := [EngineOp.closePage], err := some e } ∧
    (PlaywrightManager.close okCloseEnv s).err = none ∧
    (PlaywrightManager.close okCloseEnv s).state.isEmptySession = true := by
  refine ⟨?_, ?_, ?_⟩
  · obtain ⟨pg, hpg⟩ := Option.isSome_iff_exists.mp hp
    simp [PlaywrightManager.close, hpg, he]
  · exact (close_ok okCloseEnv s rfl rfl rfl rfl).1
  · rw [(close_ok okCloseEnv s rfl rfl rfl rfl).2]
    exact cleared_isEmptySession s

/-- Witness for C6 (amended) on a live session with a failing page close. -/
theorem c6_witness :
    PlaywrightManager.close { pageCloseErr := some "boom" } liveWorld.mgr =
      { state := liveWorld.mgr, ops := [EngineOp.closePage], err := some "boom" } ∧
    (PlaywrightManager.close okCloseEnv liveWorld.mgr).err = none ∧
    (PlaywrightManager.close okCloseEnv liveWorld.mgr).state.isEmptySession = true :=
  c6_teardown_error_propagates { pageCloseErr := some "boom" } liveWorld.mgr "boom"
    (by decide) rfl

/-- The engine operations that destroy part of a session. -/
def isTeardownOp : EngineOp → Bool
  | EngineOp.closePage => true
  | EngineOp.closeContext => true
  | EngineOp.closeBrowser => true
  | EngineOp.stopPlaywright => true
  | _ => false

theorem ensure_browser_no_teardown (w : World) :
    ∀ op ∈ (PlaywrightManager.ensure_browser w).ops, isTeardownOp op = false := by
  obtain ⟨n, bt, hl, vw, vh, pw, br, cx, pg⟩ := w
  cases pw <;> cases br <;> cases cx <;> cases pg <;>
    simp [PlaywrightManager.ensure_browser, isTeardownOp]

/-- C3: when the current configuration already satisfies the constraints of
the PDF reconfiguration guard (chromium engine and the headless flag the
guard requires), `browser_save_as_pdf` performs no teardown: its
engine-operation trace contains no close/stop operation and its
session-management effect is exactly that of a plain `acquire()` — the
resulting world is `ensure_browser`'s world, so every existing handle is
kept. -/
theorem c3_reconfigure_satisfied_no_teardown (w : World) (env : PageEnv) (cenv : CloseEnv)
    (ts : String) (landscape : Bool) (format : Option String)
    (hbt : w.mgr.browser_type = BrowserType.chromium) (hhl : w.mgr.headless = true) :
    (browser_save_as_pdf landscape format cenv env ts w).world =
      (PlaywrightManager.ensure_browser w).world ∧
    ((browser_save_as_pdf landscape format cenv env ts w).ops.all
      fun op => !isTeardownOp op) = true := by
  constructor
  · cases h : env.pdfErr <;>
      simp [browser_save_as_pdf, hbt, hhl, savePdfGenerate, h]
  · cases h : env.pdfErr <;>
      simp [browser_save_as_pdf, hbt, hhl, savePdfGenerate, h, isTeardownOp] <;>
      exact fun x hx => ensure_browser_no_teardown w x hx

/-- A (hypothetical) headless chromium configuration, used to witness the
no-teardown branch of the PDF guard. -/
def headlessWorld : World :=
  { nextId := 0, mgr := { initialManager with headless := true } }

/-- Witness for C3 at a headless chromium session. -/
theorem c3_witness :
    (browser_save_as_pdf true none okCloseEnv okPageEnv "20240101_000000" headlessWorld).world =
      (PlaywrightManager.ensure_browser headlessWorld).world ∧
    ((browser_save_as_pdf true none okCloseEnv okPageEnv "20240101_000000" headlessWorld).ops.all
      fun op => !isTeardownOp op) = true :=
  c3_reconfigure_satisfied_no_teardown headlessWorld okPageEnv okCloseEnv
    "20240101_000000" true none rfl rfl

/-- C1: evaluating `browser_save_as_pdf` at the failing input — a live
headed chromium session.  The session is torn down and rebuilt and the
returned path is the timestamped `.pdf` under the temporary directory, as
the claim states; but line 352 of the source sets `headless = False`, so
the rebuilt session is again headed, not headless: the relaunch uses
`headless=False` and the resulting configuration is non-headless. -/
theorem c1_save_as_pdf_rebuild_is_headed :
    (EngineOp.closePage ∈
      (browser_save_as_pdf true none okCloseEnv okPageEnv "20240101_000000" liveWorld).ops) ∧
    (EngineOp.stopPlaywright ∈
      (browser_save_as_pdf true none okCloseEnv okPageEnv "20240101_000000" liveWorld).ops) ∧
    (EngineOp.launch BrowserType.chromium false ∈
      (browser_save_as_pdf true none okCloseEnv okPageEnv "20240101_000000" liveWorld).ops) ∧
    (browser_save_as_pdf true none okCloseEnv okPageEnv "20240101_000000"
      liveWorld).world.mgr.browser_type = BrowserType.chromium ∧
    (browser_save_as_pdf true none okCloseEnv okPageEnv "20240101_000000"
      liveWorld).world.mgr.headless = false ∧
    (browser_save_as_pdf true none okCloseEnv okPageEnv "20240101_000000" liveWorld).result =
      Except.ok "PDF saved to /tmp/page_20240101_000000.pdf" := by
  decide

/-- C2: two registered actions let exceptions escape the dispatch boundary.
`Browser-Scroll-To-Bottom` re-raises `ValueError(error_msg)` when the
scrolling `evaluate` fails (line 491), and `Get-Cookies` always raises
`NameError` after a successful cookie read because the module never imports
`json` (line 928) — contradicting the claim that every action returns a
string and never propagates an exception. -/
theorem c2_exceptions_escape_dispatch :
    (browser_scroll_to_bottom
      { evalErr := some "Target closed" } liveWorld).result =
      Except.error (PyExn.valueError "Failed to scroll to bottom: Target closed") ∧
    (get_cookies okPageEnv liveWorld).result = Except.error (PyExn.nameError "json") := by
  decide

/-- C7 counterexample: `Browser-Click` on a selector matching no element
performs no existence query at all — on an already-live session its entire
engine trace is the single `click` attempt — and returns the engine's own
wrapped timeout error rather than a distinct "not found" failure produced
before the effectful operation. -/
theorem c7_counterexample_click_no_prequery :
    (browser_click (PyVal.str "#missing")
      { clickErr := some "Timeout 5000ms exceeded." } liveWorld).ops =
      [EngineOp.click "#missing"] ∧
    (browser_click (PyVal.str "#missing")
      { clickErr := some "Timeout 5000ms exceeded." } liveWorld).result =
      Except.ok "Could not click element: Timeout 5000ms exceeded." := by
  decide

/-- C7 (amended): only the element-`Screenshot` action resolves existence
first and returns a distinct not-found failure without attempting the
effectful operation; `Click` and `Fill` perform no existence query — they
attempt the engine operation directly and convert the engine's own failure
into a returned failure message. -/
theorem c7_prequery_amended (env : PageEnv) (w : World) (sel ts : String) (fp : PyVal)
    (e : String) (hsel : sel.isEmpty = false) (hq : env.queryErr = none)
    (hfound : env.queryFound sel = false) (hclick : env.clickErr = some e)
    (hfill : env.fillErr = some e) :
    (browser_screenshot (PyVal.str sel) fp env ts w).result =
      Except.ok ("Error: Could not find element with selector '" ++ sel ++ "'") ∧
    (browser_screenshot (PyVal.str sel) fp env ts w).ops =
      (PlaywrightManager.ensure_browser w).ops ++ [EngineOp.querySelector sel] ∧
    (browser_click (PyVal.str sel) env w).ops =
      (PlaywrightManager.ensure_browser w).ops ++ [EngineOp.click sel] ∧
    (browser_click (PyVal.str sel) env w).result =
      Except.ok ("Could not click element: " ++ e) ∧
    (browser_fill (PyVal.str sel) (PyVal.str "text") env w).ops =
      (PlaywrightManager.ensure_browser w).ops ++ [EngineOp.fill sel "text"] ∧
    (browser_fill (PyVal.str sel) (PyVal.str "text") env w).result =
      Except.ok ("Could not fill element: " ++ e) := by
  refine ⟨?_, ?_, ?_, ?_, ?_, ?_⟩ <;>
    simp [browser_screenshot, browser_click, browser_fill, invalidStrArg,
      PyVal.truthy, PyVal.isStr, PyVal.asStr, hsel, hq, hfound, hclick, hfill]

/-- Witness for C7 (amended): a missing element with an engine timeout. -/
theorem c7_witness :
    (browser_screenshot (PyVal.str "#a") PyVal.pynone
      { clickErr := some "Timeout 5000ms exceeded."
        fillErr := some "Timeout 5000ms exceeded." } "20240101_000000" liveWorld).result =
      Except.ok "Error: Could not find element with selector '#a'" ∧
    (browser_screenshot (PyVal.str "#a") PyVal.pynone
      { clickErr := some "Timeout 5000ms exceeded."
        fillErr := some "Timeout 5000ms exceeded." } "20240101_000000" liveWorld).ops =
      (PlaywrightManager.ensure_browser liveWorld).ops ++ [EngineOp.querySelector "#a"] ∧
    (browser_click (PyVal.str "#a")
      { clickErr := some "Timeout 5000ms exceeded."
        fillErr := some "Timeout 5000ms exceeded." } liveWorld).ops =
      (PlaywrightManager.ensure_browser liveWorld).ops ++ [EngineOp.click "#a"] ∧
    (browser_click (PyVal.str "#a")
      { clickErr := some "Timeout 5000ms exceeded."
        fillErr := some "Timeout 5000ms exceeded." } liveWorld).result =
      Except.ok "Could not click element: Timeout 5000ms exceeded." ∧
    (browser_fill (PyVal.str "#a") (PyVal.str "text")
      { clickErr := some "Timeout 5000ms exceeded."
        fillErr := some "Timeout 5000ms exceeded." } liveWorld).ops =
      (PlaywrightManager.ensure_browser liveWorld).ops ++ [EngineOp.fill "#a" "text"] ∧
    (browser_fill (PyVal.str "#a") (PyVal.str "text")
      { clickErr := some "Timeout 5000ms exceeded."
        fillErr := some "Timeout 5000ms exceeded." } liveWorld).result =
      Except.ok "Could not fill element: Timeout 5000ms exceeded." :=
  c7_prequery_amended
    { clickErr := some "Timeout 5000ms exceeded."
      fillErr := some "Timeout 5000ms exceeded." } liveWorld "#a" "20240101_000000"
    PyVal.pynone "Timeout 5000ms exceeded." (by decide) rfl rfl rfl rfl

/-- C8 counterexample: `Browser-Screenshot` with the malformed empty-string
selector does not return an immediate validation failure before acquiring —
starting from the fresh module state it triggers full session construction
(the engine is started) and then succeeds with a full-page screenshot. -/
theorem c8_counterexample_screenshot_unvalidated :
    EngineOp.startPlaywright ∈
      (browser_screenshot (PyVal.str "") PyVal.pynone okPageEnv "20240101_000000"
        initialWorld).ops ∧
    (browser_screenshot (PyVal.str "") PyVal.pynone okPageEnv "20240101_000000"
      initialWorld).world ≠ initialWorld ∧
    (browser_screenshot (PyVal.str "") PyVal.pynone okPageEnv "20240101_000000"
      initialWorld).result =
      Except.ok "Screenshot saved to /tmp/screenshot_20240101_000000.png" := by
  decide

/-- C8 (amended): every argument-validating action (Navigate, Fill,
FindByXPath, Click, ScrollToElement, GetElementHtml, GetElementText,
SaveElementAsHtml, ClearField, PressKey, ScrollOneStep) returns an
immediate structured failure on a malformed argument, with no engine
operation and the session state untouched; `Screenshot` alone performs no
validation — a falsy selector is treated as absent and session
construction proceeds. -/
theorem c8_validation_amended (env : PageEnv) (w : World) (v t step : PyVal)
    (fp : Option String) (ts : String)
    (hv : invalidStrArg v = true) (hstep : step.isInt = false) :
    browser_navigate v env w =
      { world := w, ops := [], result := Except.ok "Error: URL must be a non-empty string" } ∧
    browser_fill v t env w =
      { world := w, ops := [], result := Except.ok "Error: Selector must be a non-empty string" } ∧
    browser_find_by_xpath v env w =
      { world := w, ops := [], result := Except.ok "Error: XPath must be a non-empty string" } ∧
    browser_click v env w =
      { world := w, ops := [], result := Except.ok "Error: Selector must be a non-empty string" } ∧
    browser_scroll_to_element v env w =
      { world := w, ops := [], result := Except.ok "Error: Selector must be a non-empty string" } ∧
    get_element_html v env w =
      { world := w, ops := [], result := Except.ok "Error: XPath must be a non-empty string" } ∧
    get_element_text v env w =
      { world := w, ops := [], result := Except.ok "Error: XPath must be a non-empty string" } ∧
    save_element_as_html v fp env ts w =
      { world := w, ops := [], result := Except.ok "Error: XPath must be a non-empty string" } ∧
    clear_field v env w =
      { world := w, ops := [], result := Except.ok "Error: XPath must be a non-empty string" } ∧
    browser_press_key v env w =
      { world := w, ops := [], result := Except.ok "Error: Key must be a non-empty string" } ∧
    browser_scroll_one_step step env w =
      { world := w, ops := [], result := Except.ok "Error: Step must be an integer" } ∧
    (v.truthy = false →
      (browser_screenshot v PyVal.pynone env ts w).ops =
        (PlaywrightManager.ensure_browser w).ops ++
          [EngineOp.pageScreenshot (pathJoin tempdir ("screenshot_" ++ ts ++ ".png"))]) := by
  refine ⟨?_, ?_, ?_, ?_, ?_, ?_, ?_, ?_, ?_, ?_, ?_, ?_⟩
  · simp [browser_navigate, hv]
  · simp [browser_fill, hv]
  · simp [browser_find_by_xpath, hv]
  · simp [browser_click, hv]
  · simp [browser_scroll_to_element, hv]
  · simp [get_element_html, hv]
  · simp [get_element_text, hv]
  · simp [save_element_as_html, hv]
  · simp [clear_field, hv]
  · simp [browser_press_key, hv]
  · simp [browser_scroll_one_step, hstep]
  · intro hfalsy
    cases h : env.pageScreenshotErr <;>
      simp [browser_screenshot, hfalsy, h]

/-- Witness for C8 (amended): the empty string as the malformed
selector/URL/XPath/key and a string as the malformed step. -/
theorem c8_witness :
    browser_navigate (PyVal.str "") okPageEnv initialWorld =
      { world := initialWorld, ops := []
        result := Except.ok "Error: URL must be a non-empty string" } ∧
    browser_fill (PyVal.str "") (PyVal.str "t") okPageEnv initialWorld =
      { world := initialWorld, ops := []
        result := Except.ok "Error: Selector must be a non-empty string" } ∧
    browser_find_by_xpath (PyVal.str "") okPageEnv initialWorld =
      { world := initialWorld, ops := []
        result := Except.ok "Error: XPath must be a non-empty string" } ∧
    browser_click (PyVal.str "") okPageEnv initialWorld =
      { world := initialWorld, ops := []
        result := Except.ok "Error: Selector must be a non-empty string" } ∧
    browser_scroll_to_element (PyVal.str "") okPageEnv initialWorld =
      { world := initialWorld, ops := []
        result := Except.ok "Error: Selector must be a non-empty string" } ∧
    get_element_html (PyVal.str "") okPageEnv initialWorld =
      { world := initialWorld, ops := []
        result := Except.ok "Error: XPath must be a non-empty string" } ∧
    get_element_text (PyVal.str "") okPageEnv initialWorld =
      { world := initialWorld, ops := []
        result := Except.ok "Error: XPath must be a non-empty string" } ∧
    save_element_as_html (PyVal.str "") none okPageEnv "20240101_000000" initialWorld =
      { world := initialWorld, ops := []
        result := Except.ok "Error: XPath must be a non-empty string" } ∧
    clear_field (PyVal.str "") okPageEnv initialWorld =
      { world := initialWorld, ops := []
        result := Except.ok "Error: XPath must be a non-empty string" } ∧
    browser_press_key (PyVal.str "") okPageEnv initialWorld =
      { world := initialWorld, ops := []
        result := Except.ok "Error: Key must be a non-empty string" } ∧
    browser_scroll_one_step (PyVal.str "5") okPageEnv initialWorld =
      { world := initialWorld, ops := []
        result := Except.ok "Error: Step must be an integer" } ∧
    ((PyVal.str "").truthy = false →
      (browser_screenshot (PyVal.str "") PyVal.pynone okPageEnv "20240101_000000"
        initialWorld).ops =
        (PlaywrightManager.ensure_browser initialWorld).ops ++
          [EngineOp.pageScreenshot
            (pathJoin tempdir ("screenshot_" ++ "20240101_000000" ++ ".png"))]) :=
  c8_validation_amended okPageEnv initialWorld (PyVal.str "") (PyVal.str "t")
    (PyVal.str "5") none "20240101_000000" (by decide) (by decide)

/-- C9 counterexample: `Save-Page-As-HTML` called without a path defaults
to `work_dir` (the module's own directory, `os.path.dirname(__file__)`),
not the temporary-files directory: the written and returned default path is
not under `tempdir`. -/
theorem c9_counterexample_save_page_html_workdir :
    (save_page_as_html none okPageEnv "20240101_000000" liveWorld).result =
      Except.ok "HTML saved to /repo/src/page_20240101_000000.html" ∧
    EngineOp.writeFile "/repo/src/page_20240101_000000.html" ∈
      (save_page_as_html none okPageEnv "20240101_000000" liveWorld).ops ∧
    (tempdir ++ "/").toList.isPrefixOf "/repo/src/page_20240101_000000.html".toList = false := by
  decide

/-- C9 (amended): without an explicit path, `SaveAsPdf` and `Screenshot`
default into the temporary directory, while `SavePageScreenshot`,
`SavePageAsHtml` and `SaveElementAsHtml` default into the module's
directory (`work_dir`); in every case the default file name contains the
timestamp. -/
theorem c9_default_paths_amended (env : PageEnv) (w : World) (ts x : String)
    (landscape : Bool) (format : Option String)
    (hx : x.isEmpty = false)
    (hpdf : env.pdfErr = none) (hps : env.pageScreenshotErr = none)
    (hct : env.contentErr = none) (hwr : env.writeErr = none)
    (hq : env.queryErr = none) (hf : env.queryFound ("xpath=" ++ x) = true)
    (hee : env.elementEvalErr = none) (hout : env.outerHtmlVal.isEmpty = false) :
    (browser_save_as_pdf landscape format okCloseEnv env ts w).result =
      Except.ok ("PDF saved to " ++ pathJoin tempdir ("page_" ++ ts ++ ".pdf")) ∧
    (browser_screenshot PyVal.pynone PyVal.pynone env ts w).result =
      Except.ok ("Screenshot saved to " ++ pathJoin tempdir ("screenshot_" ++ ts ++ ".png")) ∧
    (save_page_screenshot none env ts w).result =
      Except.ok ("Screenshot saved to " ++ pathJoin work_dir ("screenshot_" ++ ts ++ ".png")) ∧
    (save_page_as_html none env ts w).result =
      Except.ok ("HTML saved to " ++ pathJoin work_dir ("page_" ++ ts ++ ".html")) ∧
    (save_element_as_html (PyVal.str x) none env ts w).result =
      Except.ok ("Element HTML saved to " ++ pathJoin work_dir ("element_" ++ ts ++ ".html")) := by
  refine ⟨?_, ?_, ?_, ?_, ?_⟩
  · by_cases hguard : w.mgr.browser_type ≠ BrowserType.chromium ∨ w.mgr.headless = false
    · have hok := close_ok okCloseEnv w.mgr rfl rfl rfl rfl
      simp [browser_save_as_pdf, hguard, savePdfGenerate, hok.1, hpdf]
    · simp [browser_save_as_pdf, hguard, savePdfGenerate, hpdf]
  · simp [browser_screenshot, PyVal.truthy, hps]
  · simp [save_page_screenshot, defaultedPath, hps]
  · simp [save_page_as_html, defaultedPath, hct, hwr]
  · simp [save_element_as_html, invalidStrArg, PyVal.truthy, PyVal.isStr, PyVal.asStr,
      defaultedPath, hx, hq, hf, hee, hout, hwr]

/-- Witness for C9 (amended): a fault-free environment with one matching
element whose `outerHTML` is nonempty. -/
theorem c9_witness :
    (browser_save_as_pdf false none okCloseEnv
      { queryFound := fun _ => true, outerHtmlVal := "<div></div>" }
      "20240101_000000" liveWorld).result =
      Except.ok ("PDF saved to " ++ pathJoin tempdir ("page_" ++ "20240101_000000" ++ ".pdf")) ∧
    (browser_screenshot PyVal.pynone PyVal.pynone
      { queryFound := fun _ => true, outerHtmlVal := "<div></div>" }
      "20240101_000000" liveWorld).result =
      Except.ok ("Screenshot saved to " ++
        pathJoin tempdir ("screenshot_" ++ "20240101_000000" ++ ".png")) ∧
    (save_page_screenshot none
      { queryFound := fun _ => true, outerHtmlVal := "<div></div>" }
      "20240101_000000" liveWorld).result =
      Except.ok ("Screenshot saved to " ++
        pathJoin work_dir ("screenshot_" ++ "20240101_000000" ++ ".png")) ∧
    (save_page_as_html none
      { queryFound := fun _ => true, outerHtmlVal := "<div></div>" }
      "20240101_000000" liveWorld).result =
      Except.ok ("HTML saved to " ++ pathJoin work_dir ("page_" ++ "20240101_000000" ++ ".html")) ∧
    (save_element_as_html (PyVal.str "//div") none
      { queryFound := fun _ => true, outerHtmlVal := "<div></div>" }
      "20240101_000000" liveWorld).result =
      Except.ok ("Element HTML saved to " ++
        pathJoin work_dir ("element_" ++ "20240101_000000" ++ ".html")) :=
  c9_default_paths_amended
    { queryFound := fun _ => true, outerHtmlVal := "<div></div>" }
    liveWorld "20240101_000000" "//div" false none (by decide) rfl rfl rfl rfl rfl rfl rfl
    (by decide)

/-- C10: the `file_path` argument of `Browser-Screenshot` is accepted but
never read: for any two values of `file_path` the action's outcome is
identical, and (for a page screenshot with no engine failure) the file is
written to, and the returned message names, the timestamped path in the
temporary directory. -/
theorem c10_screenshot_ignores_file_path (selector fp1 fp2 : PyVal) (env : PageEnv)
    (ts : String) (w : World) (hs : selector.truthy = false)
    (hok : env.pageScreenshotErr = none) :
    browser_screenshot selector fp1 env ts w = browser_screenshot selector fp2 env ts w ∧
    (browser_screenshot selector fp1 env ts w).ops =
      (PlaywrightManager.ensure_browser w).ops ++
        [EngineOp.pageScreenshot (pathJoin tempdir ("screenshot_" ++ ts ++ ".png"))] ∧
    (browser_screenshot selector fp1 env ts w).result =
      Except.ok ("Screenshot saved to " ++ pathJoin tempdir ("screenshot_" ++ ts ++ ".png")) := by
  refine ⟨rfl, ?_, ?_⟩ <;> simp [browser_screenshot, hs, hok]

/-- Witness for C10: an explicit `file_path` is supplied and ignored. -/
theorem c10_witness :
    browser_screenshot PyVal.pynone (PyVal.str "/home/user/shot.png") okPageEnv
        "20240101_000000" liveWorld =
      browser_screenshot PyVal.pynone PyVal.pynone okPageEnv "20240101_000000" liveWorld ∧
    (browser_screenshot PyVal.pynone (PyVal.str "/home/user/shot.png") okPageEnv
        "20240101_000000" liveWorld).ops =
      (PlaywrightManager.ensure_browser liveWorld).ops ++
        [EngineOp.pageScreenshot
          (pathJoin tempdir ("screenshot_" ++ "20240101_000000" ++ ".png"))] ∧
    (browser_screenshot PyVal.pynone (PyVal.str "/home/user/shot.png") okPageEnv
        "20240101_000000" liveWorld).result =
      Except.ok ("Screenshot saved to " ++
        pathJoin tempdir ("screenshot_" ++ "20240101_000000" ++ ".png")) :=
  c10_screenshot_ignores_file_path PyVal.pynone (PyVal.str "/home/user/shot.png")
    PyVal.pynone okPageEnv "20240101_000000" liveWorld (by decide) rfl

theorem liveWorld_page : liveWorld.mgr.page = some 3 := by decide

theorem close_live_isEmptySession :
    (PlaywrightManager.close okCloseEnv liveWorld.mgr).state.isEmptySession = true := by
  decide
